import Mathlib

/-!
Verification of the interactive terminal-synchronization engine of the
Netmiko additional-drivers repository.

The Python drivers are shallowly embedded: the remote channel is a scripted
queue of read results plus a log of writes, Python strings become Lean
`String` (with the handful of Python string operations the drivers use
re-implemented over `List Char`), and every driver method used by the claims
is translated statement by statement from its source file.  External
netmiko base-class primitives (the transport, `read_until_pattern`,
`normalize_cmd`, ...) are out of scope for the repository and are modelled
at their documented interface.
-/

namespace NetmikoDrivers

/-! ## Python string primitives -/

/-- Characters treated as whitespace by Python `str.strip()` (ASCII range). -/
def pyWS (c : Char) : Bool :=
  c = ' ' || c = '\t' || c = '\n' || c = '\r' || c = '\x0b' || c = '\x0c'

/-- Python `str.strip()` on a character list: drop whitespace at both ends. -/
def stripL (l : List Char) : List Char :=
  ((l.dropWhile pyWS).reverse.dropWhile pyWS).reverse

/-- Python `str.rstrip()` on a character list. -/
def rstripL (l : List Char) : List Char :=
  (l.reverse.dropWhile pyWS).reverse

/-- Boolean prefix test on character lists. -/
def isPrefixB : List Char → List Char → Bool
  | [], _ => true
  | _ :: _, [] => false
  | a :: as, b :: bs => (a == b) && isPrefixB as bs

/-- Boolean substring test: Python `needle in hay`. -/
def isInfixB (n : List Char) : List Char → Bool
  | [] => isPrefixB n []
  | c :: t => isPrefixB n (c :: t) || isInfixB n t

/-- Worker for `normLF`: the flag records that the previous character was a
CR not yet emitted. -/
def normLFGo : Bool → List Char → List Char
  | false, [] => []
  | true, [] => ['\n']
  | false, c :: rest =>
    if c = '\r' then normLFGo true rest else c :: normLFGo false rest
  | true, c :: rest =>
    if c = '\n' then '\n' :: normLFGo false rest
    else '\n' :: (if c = '\r' then normLFGo true rest else c :: normLFGo false rest)

/-- External netmiko `normalize_linefeeds`, modelled at its interface:
CRLF pairs and stray CR characters are converted to LF. -/
def normLF (l : List Char) : List Char := normLFGo false l

/-- Python `s.split("\n")[-1]`: the suffix after the last LF. -/
def lastAfterNL (l : List Char) : List Char :=
  (l.reverse.takeWhile (fun c => c ≠ '\n')).reverse

/-- Python `str.strip()`. -/
def pyStrip (s : String) : String := String.mk (stripL s.data)

/-- Python `str.rstrip()`. -/
def pyRstrip (s : String) : String := String.mk (rstripL s.data)

/-- Python substring containment `needle in hay`. -/
def pyIn (needle hay : String) : Bool := isInfixB needle.data hay.data

/-- Python `s.split(RESPONSE_RETURN)[-1]` with `RESPONSE_RETURN = "\n"`. -/
def pyLastLine (s : String) : String := String.mk (lastAfterNL s.data)

/-- External `normalize_linefeeds` lifted to `String`. -/
def pyNormLF (s : String) : String := String.mk (normLF s.data)

/-- The line terminator `self.RETURN` sent to the device (SSH default). -/
def RETURN : String := "\n"

/-- External netmiko `normalize_cmd`: strip trailing whitespace, append RETURN. -/
def normalizeCmd (s : String) : String := pyRstrip s ++ RETURN

/-! ## The scripted channel

A session channel is modelled by the queue of texts that successive channel
reads will return (the device's scripted responses arriving after the
initial probe write) together with the log of everything written to the
device.  `read_channel` is non-blocking: once the script is exhausted every
further read returns the empty string.  `clear_buffer` discards stale bytes
buffered before the probe write; the script holds only post-probe arrivals,
so it is the identity on this model. -/

structure Chan where
  reads : List String
  writes : List String
  deriving Repr, DecidableEq

/-- Non-blocking `read_channel`. -/
def readCh (ch : Chan) : String × Chan :=
  match ch.reads with
  | [] => ("", ch)
  | r :: rest => (r, { ch with reads := rest })

/-- `write_channel`. -/
def writeCh (s : String) (ch : Chan) : Chan :=
  { ch with writes := ch.writes ++ [s] }

/-- Python exceptions surfaced by the drivers. -/
inductive PyErr where
  | valueError (msg : String)
  | configInvalid (msg : String)
  | timeout
  deriving Repr, DecidableEq

deriving instance DecidableEq for Except

/-! ## Prompt Locator: the shared inner empty-read retry loop

From `AdtranOSBase.find_prompt` (src/netmiko/adtran/adtran.py, lines
117-129); the identical block appears in the Audiocode, Cisco ASA, Fortinet
and BashServer variants.  The source runs `count` from 0 while
`count <= 12 and not prompt`, so the loop body executes at most 13 times;
here `fuel = 13 - count` decreases structurally. -/

/-- The backoff update applied after each empty re-read:
`if sleep_time <= 3: sleep_time *= 2 else: sleep_time += 1`.
All times are measured in tenths of a time-unit (the sources scale every
sleep from the 0.1 quantum), so the ceiling 3 is 30 tenths and the additive
step 1 is 10 tenths. -/
def backoffStep (s : Nat) : Nat := if s ≤ 30 then s * 2 else s + 10

/-- One driver inner retry loop: re-read while the prompt is empty, resending
the line terminator and backing off after every empty read. -/
def innerRetry : Nat → String → Chan → Nat → String × Chan × Nat
  | 0, prompt, ch, sleep => (prompt, ch, sleep)
  | fuel + 1, prompt, ch, sleep =>
    if prompt = "" then
      let (r, ch') := readCh ch
      let prompt' := pyStrip r
      if prompt' = "" then
        innerRetry fuel prompt' (writeCh RETURN ch') (backoffStep sleep)
      else
        innerRetry fuel prompt' ch' sleep
    else (prompt, ch, sleep)

/-- Last-line extraction applied to a raw read in every `find_prompt`
variant: `normalize_linefeeds`, split on `RESPONSE_RETURN`, keep the last
line, strip. -/
def lastLineOf (s : String) : String := pyStrip (pyLastLine (pyNormLF s))

/-- The prompt-validation test of `AdtranOSBase.find_prompt`
(adtran.py line 139), with Python operator precedence:
`"Failure" not in prompt and "config" not in prompt and "#" in prompt
 or ">" in prompt` parses as `(A and B and C) or D`. -/
def adtranPromptOk (p : String) : Bool :=
  (!(pyIn "Failure" p) && !(pyIn "config" p) && pyIn "#" p) || pyIn ">" p

/-- Outer validation loop of `AdtranOSBase.find_prompt` (adtran.py lines
110-146).  The source loops `while loops <= max_loops` with
`max_loops = 20`; here `fuel = 21 - loops` decreases structurally, so
`fuel = 0` is the fall-through exit of the `while` condition.  `lastP`
carries the prompt variable of the previous iteration so the post-loop
`if not prompt: raise` test can be stated faithfully; the source raises
inside the loop when `loops == 20`, so the fall-through is unreachable
there. -/
def adtranFPLoop : Nat → Nat → String → Chan → Nat → (Except PyErr String) × Chan
  | 0, _, lastP, ch, _ =>
    if lastP = "" then
      (.error (.valueError ("Unable to find prompt: " ++ lastP)), ch)
    else (.ok lastP, ch)
  | fuel + 1, loops, _, ch, sleep =>
    let (r, ch) := readCh ch
    let p0 := pyStrip r
    let (p1, ch, sleep) :=
      if p0 = "" then innerRetry 13 p0 ch sleep else (p0, ch, sleep)
    let prompt := lastLineOf p1
    if loops = 20 then
      (.error (.valueError ("Unable to find prompt: " ++ prompt)), ch)
    else if adtranPromptOk prompt then
      if prompt = "" then
        (.error (.valueError ("Unable to find prompt: " ++ prompt)), ch)
      else (.ok prompt, ch)
    else
      adtranFPLoop fuel (loops + 1) prompt (writeCh RETURN ch) sleep

/-- `AdtranOSBase.find_prompt` (adtran.py lines 98-150): clear the buffer,
send a line terminator, then run the validation loop with
`sleep_time = delay_factor * 0.1`, i.e. `df` tenths for an integral delay
factor `df`. -/
def adtranFindPrompt (df : Nat) (ch : Chan) : (Except PyErr String) × Chan :=
  adtranFPLoop 21 0 "" (writeCh RETURN ch) df

/-- The prompt-validation test of `AudiocodeBaseSSH.find_prompt`
(audiocode_ssh_backup.py line 183): `"#" in prompt or ">" in prompt`. -/
def audiocodePromptOk (p : String) : Bool := pyIn "#" p || pyIn ">" p

/-- Outer validation loop of `AudiocodeBaseSSH.find_prompt`
(audiocode_ssh_backup.py lines 156-194).  The loop bound is
`max_loops = 10` but the raise guard tests `loops == 19`, which is
unreachable, so the loop can fall through with an invalid prompt; the
fall-through only re-raises when the prompt is empty. -/
def audiocodeFPLoop : Nat → Nat → String → Chan → Nat → (Except PyErr String) × Chan
  | 0, _, lastP, ch, _ =>
    if lastP = "" then
      (.error (.valueError ("Unable to find prompt: " ++ lastP)), ch)
    else (.ok lastP, ch)
  | fuel + 1, loops, _, ch, sleep =>
    let (r, ch) := readCh ch
    let p0 := pyStrip r
    let (p1, ch, sleep) :=
      if p0 = "" then innerRetry 13 p0 ch sleep else (p0, ch, sleep)
    let prompt := lastLineOf p1
    if loops = 19 then
      (.error (.valueError ("Unable to find prompt: " ++ prompt)), ch)
    else if audiocodePromptOk prompt then
      if prompt = "" then
        (.error (.valueError ("Unable to find prompt: " ++ prompt)), ch)
      else (.ok prompt, ch)
    else
      audiocodeFPLoop fuel (loops + 1) prompt (writeCh RETURN ch) sleep

/-- `AudiocodeBaseSSH.find_prompt` (audiocode_ssh_backup.py lines 144-194);
the `while loops <= max_loops` bound is `max_loops = 10`, so `fuel = 11`. -/
def audiocodeFindPrompt (df : Nat) (ch : Chan) : (Except PyErr String) × Chan :=
  audiocodeFPLoop 11 0 "" (writeCh RETURN ch) df

/-! ## set_base_prompt variants -/

/-- Python indexing `s[i]` with support for negative indices; `none` is an
`IndexError`. -/
def pyCharAt (s : String) (i : Int) : Option Char :=
  let j := if i < 0 then i + s.data.length else i
  if h : 0 ≤ j ∧ j < (s.data.length : Int) then
    some (s.data.get ⟨j.toNat, by omega⟩)
  else none

/-- Python slicing `s[:i]` with support for negative indices. -/
def pySliceTo (s : String) (i : Int) : String :=
  String.mk (s.data.take (if i < 0 then (i + s.data.length).toNat else i.toNat))

/-- Python truthiness of a string: non-empty is truthy. -/
def pyTruthy (s : String) : Bool := s ≠ ""

/-- Suffix test on strings. -/
def endsWithB (suffix s : String) : Bool :=
  isPrefixB suffix.data.reverse s.data.reverse

/-- Outcome of a `set_base_prompt` call. -/
inductive SBPResult where
  | ok (basePrompt : String)
  | promptNotFound (msg : String)
  | indexError
  deriving Repr, DecidableEq

/-- Terminator stripping of `AudiocodeSSH.set_base_prompt`
(audiocode_ssh.py lines 60-64).  The source reads
`if alt_prompt_terminator1 or alt_prompt_terminator2 in prompt:` which by
Python precedence is `alt1 or (alt2 in prompt)`; `alt1 = "*>"` is a
non-empty string, hence truthy, so the two-character slice branch is always
taken. -/
def audiocode72Strip (prompt : String) : SBPResult :=
  if pyTruthy "*>" || pyIn "*#" prompt then .ok (pySliceTo prompt (-2))
  else .ok (pySliceTo prompt (-1))

/-- `AudiocodeSSH.set_base_prompt` (audiocode_ssh.py lines 27-65), applied
to the prompt returned by `find_prompt`.  `prompt[-2]` raises `IndexError`
on prompts shorter than two characters; when it is in range it is a
one-character string and never equals the two-character alternates, so the
inner `prompt[-1]` test decides validity. -/
def audiocode72SetBasePrompt (prompt : String) : SBPResult :=
  match pyCharAt prompt (-2) with
  | none => .indexError
  | some c2 =>
    if !(String.mk [c2] == "*>" || String.mk [c2] == "*#") then
      match pyCharAt prompt (-1) with
      | none => .indexError
      | some c1 =>
        if !(String.mk [c1] == ">" || String.mk [c1] == "#") then
          .promptNotFound ("Router prompt not found: " ++ prompt)
        else audiocode72Strip prompt
    else audiocode72Strip prompt

/-- Whether `re.search` finds the end-anchored pattern
`(\*?#$|\*?>)$` of `AudiocodeBaseSSH.set_base_prompt`
(audiocode_ssh_backup.py line 49, with `pri = "#"`, `alt = ">"`): the
pattern matches exactly when the prompt ends in `#` or `>`. -/
def audiocodeBackupPromptMatches (p : String) : Bool :=
  endsWithB "#" p || endsWithB ">" p

/-- `re.sub` of that pattern with the empty string: the single end-anchored
match is removed; the optional leading `*` makes the match two characters
long when present. -/
def audiocodeBackupStrip (p : String) : String :=
  if endsWithB "*#" p then pySliceTo p (-2)
  else if endsWithB "#" p then pySliceTo p (-1)
  else if endsWithB "*>" p then pySliceTo p (-2)
  else if endsWithB ">" p then pySliceTo p (-1)
  else p

/-- `AudiocodeBaseSSH.set_base_prompt` (audiocode_ssh_backup.py lines
26-55), applied to the prompt returned by `find_prompt`. -/
def audiocodeBackupSetBasePrompt (prompt : String) : SBPResult :=
  if !(audiocodeBackupPromptMatches prompt) then
    .promptNotFound ("Router prompt not found: " ++ prompt)
  else .ok (audiocodeBackupStrip prompt)

/-! ## Mode State Machine: AdtranOSBase.enable

`enable` interacts with the channel through the blocking primitives
`read_until_prompt_or_pattern` / `read_until_prompt` (external netmiko
base-class readers).  The channel is scripted at the granularity of those
calls: each entry is the text one such read returns, and `none` scripts a
transport-level `NetmikoTimeoutException` for that read. -/

structure PChan where
  reads : List (Option String)
  writes : List String
  deriving Repr, DecidableEq

/-- One blocking read (`read_until_prompt` or
`read_until_prompt_or_pattern`): returns the next scripted text, or times
out when the script says so or is exhausted. -/
def preadUntil (ch : PChan) : (Except PyErr String) × PChan :=
  match ch.reads with
  | [] => (.error .timeout, ch)
  | none :: rest => (.error .timeout, { ch with reads := rest })
  | some r :: rest => (.ok r, { ch with reads := rest })

/-- `write_channel` on the blocking-read channel. -/
def pwriteCh (s : String) (ch : PChan) : PChan :=
  { ch with writes := ch.writes ++ [s] }

/-- External `BaseConnection.check_enable_mode`, modelled at its interface
(the Adtran driver passes `check_string = "#"`): send a line terminator,
read until the prompt, and test whether the output contains the
check string. -/
def checkEnableMode (ch : PChan) : (Except PyErr Bool) × PChan :=
  let ch := pwriteCh RETURN ch
  match preadUntil ch with
  | (.error e, ch) => (.error e, ch)
  | (.ok out, ch) => (.ok (pyIn "#" out), ch)

/-- The failure message of `AdtranOSBase.enable` (adtran.py lines 49-52);
the quotation marks around the word secret are omitted. -/
def enableFailureMsg : String :=
  "Failed to enter enable mode. Please ensure you pass the secret argument to ConnectHandler."

/-- `AdtranOSBase.enable` (adtran.py lines 36-74) with its default
arguments `cmd = "enable"`, `pattern = "ssword:"`.  The initial
`check_enable_mode` probe sits outside the `try` block; every read inside
the block converts a `NetmikoTimeoutException` into
`ValueError(enableFailureMsg)`, as does a false post-exchange
`check_enable_mode`.  When the second read still shows the password
pattern, the secret is written once more. -/
def adtranEnable (secret : String) (ch : PChan) : (Except PyErr String) × PChan :=
  match checkEnableMode ch with
  | (.error e, ch) => (.error e, ch)
  | (.ok true, ch) => (.ok "", ch)
  | (.ok false, ch) =>
    let ch := pwriteCh (normalizeCmd "enable") ch
    match preadUntil ch with
    | (.error _, ch) => (.error (.valueError enableFailureMsg), ch)
    | (.ok _, ch) =>
      let ch := pwriteCh (normalizeCmd secret) ch
      match preadUntil ch with
      | (.error _, ch) => (.error (.valueError enableFailureMsg), ch)
      | (.ok r2, ch) =>
        if pyIn "ssword:" r2 then
          let ch := pwriteCh (normalizeCmd secret) ch
          match preadUntil ch with
          | (.error _, ch) => (.error (.valueError enableFailureMsg), ch)
          | (.ok r3, ch) =>
            match checkEnableMode ch with
            | (.error _, ch) => (.error (.valueError enableFailureMsg), ch)
            | (.ok true, ch) => (.ok (r2 ++ r3), ch)
            | (.ok false, ch) => (.error (.valueError enableFailureMsg), ch)
        else
          match checkEnableMode ch with
          | (.error _, ch) => (.error (.valueError enableFailureMsg), ch)
          | (.ok true, ch) => (.ok r2, ch)
          | (.ok false, ch) => (.error (.valueError enableFailureMsg), ch)

/-! ## Timed Reader: AdtranOSBase._read_channel_timing_or_error -/

/-- Loop body of `AdtranOSBase._read_channel_timing_or_error` (adtran.py
lines 286-309).  The source iterates `while i <= max_loops`; `fuel`
counts the remaining iterations (`max_loops + 1` at entry), so `fuel = 0`
is the loop-bound exit that returns the accumulated data.  A non-empty
read appends and re-enters the loop (after checking the error pattern); an
empty read triggers the longer confirmation sleep and a second read, and
only a second empty read breaks out with the accumulated data. -/
def rtLoop (pat : String) : Nat → String → Chan → (Except PyErr String) × Chan
  | 0, acc, ch => (.ok acc, ch)
  | fuel + 1, acc, ch =>
    let (nd, ch) := readCh ch
    if nd ≠ "" then
      let acc := acc ++ nd
      if pyIn pat acc then
        (.error (.valueError ("Error pattern in Read_Channel: " ++ pat)), ch)
      else rtLoop pat fuel acc ch
    else
      let (nd2, ch) := readCh ch
      if nd2 = "" then (.ok acc, ch)
      else
        let acc := acc ++ nd2
        if pyIn pat acc then
          (.error (.valueError ("Error pattern in Read_Channel: " ++ pat)), ch)
        else rtLoop pat fuel acc ch

/-- `AdtranOSBase._read_channel_timing_or_error` (adtran.py lines 255-309)
for a given `max_loops` budget. -/
def adtranReadTimingOrError (pat : String) (maxLoops : Nat) (ch : Chan) :
    (Except PyErr String) × Chan :=
  rtLoop pat (maxLoops + 1) "" ch

/-! ## Config Batch Dispatcher

The external blocking reader `read_until_pattern` is modelled at its
interface: it accumulates successive channel reads until the accumulated
text matches the (literal) pattern, and raises a timeout when the script
is exhausted first.  The patterns used by `send_config_set` are
`re.escape(cmd.strip())` and `(?:re.escape(base_prompt)|#)`, i.e. literal
alternations, so matching is substring containment. -/

/-- External `read_until_pattern` for a decidable stopping test. -/
def readUntilLoop (pred : String → Bool) : Nat → String → Chan → (Except PyErr String) × Chan
  | 0, _, ch => (.error .timeout, ch)
  | fuel + 1, acc, ch =>
    let (r, ch) := readCh ch
    let acc := acc ++ r
    if pred acc then (.ok acc, ch) else readUntilLoop pred fuel acc ch

/-- External `read_until_pattern`, fuelled by the script length. -/
def readUntilPattern (pred : String → Bool) (ch : Chan) : (Except PyErr String) × Chan :=
  readUntilLoop pred (ch.reads.length + 1) "" ch

/-- External `_read_channel_timing`, modelled at its interface: one timed
drain of the channel returning the next scripted chunk (empty when the
device stays silent). -/
def readChannelTiming (ch : Chan) : String × Chan := readCh ch

/-- External `config_mode` (the Cisco/netmiko base-class mode-entry
exchange), modelled at its interface: it performs the entry exchange and
returns its output, here the next scripted chunk. -/
def configModeExt (ch : Chan) : String × Chan := readCh ch

/-- External `exit_config_mode` of the Cisco base class used by the Adtran
driver, modelled at its interface: it performs the mode-exit exchange and
returns its output, here the next scripted chunk. -/
def adtranExitConfigModeExt (ch : Chan) : String × Chan := readCh ch

/-- External `_sanitize_output` as called by `send_config_set`
(no command or prompt stripping requested): `normalize_linefeeds`. -/
def sanitizeOutput (s : String) : String := pyNormLF s

/-- The `config_commands` argument of `send_config_set`: `None`, a single
string, or a list of command strings. -/
inductive ConfigArg where
  | none
  | str (s : String)
  | cmds (l : List String)
  deriving Repr, DecidableEq

/-- The prompt test applied to an echo read in the `cmd_verify` branch:
`re.search(f"(?:{re.escape(self.base_prompt)}|#)", text)`. -/
def promptPatHit (bp text : String) : Bool := pyIn bp text || pyIn "#" text

/-- `cmd_verify` loop of `AdtranOSBase.send_config_set` (adtran.py lines
232-247): write each command, read until its echo, and read once more for
the trailing prompt only when the echo read did not already contain the
prompt pattern. -/
def adtranCfgVerifyLoop (bp : String) : List String → String → Chan → (Except PyErr String) × Chan
  | [], acc, ch => (.ok acc, ch)
  | cmd :: rest, acc, ch =>
    let ch := writeCh (normalizeCmd cmd) ch
    match readUntilPattern (fun t => pyIn (pyStrip cmd) t) ch with
    | (.error e, ch) => (.error e, ch)
    | (.ok newOut, ch) =>
      let acc := acc ++ newOut
      if !(promptPatHit bp newOut) then
        match readUntilPattern (fun t => promptPatHit bp t) ch with
        | (.error e, ch) => (.error e, ch)
        | (.ok newOut2, ch) => adtranCfgVerifyLoop bp rest (acc ++ newOut2) ch
      else adtranCfgVerifyLoop bp rest acc ch

/-- Body of `AdtranOSBase.send_config_set` after argument normalization. -/
def adtranSendConfigSetCore (cmds : List String) (exitCfgMode : Bool) (maxLoops : Nat)
    (cmdVerify enterCfgMode fastCli legacyMode : Bool) (bp : String)
    (ch : Chan) : (Except PyErr String) × Chan :=
  let (out0, ch) := if enterCfgMode then configModeExt ch else ("", ch)
  let step :=
    if fastCli && legacyMode then
      let ch := cmds.foldl (fun c cmd => writeCh (normalizeCmd cmd) c) ch
      let (r, ch) := readChannelTiming ch
      ((Except.ok r : Except PyErr String), ch)
    else if !cmdVerify then
      let ch := cmds.foldl (fun c cmd => writeCh (normalizeCmd cmd) c) ch
      adtranReadTimingOrError "Received disconnect" maxLoops ch
    else
      adtranCfgVerifyLoop bp cmds "" ch
  match step with
  | (.error e, ch) => (.error e, ch)
  | (.ok out1, ch) =>
    let (out2, ch) := if exitCfgMode then adtranExitConfigModeExt ch else ("", ch)
    (.ok (sanitizeOutput (out0 ++ out1 ++ out2)), ch)

/-- `AdtranOSBase.send_config_set` (adtran.py lines 152-253).  Timing
arguments (`delay_factor`, sleeps) are not part of the state; `max_loops`
bounds the bulk timing read. -/
def adtranSendConfigSet (cc : ConfigArg) (exitCfgMode : Bool) (maxLoops : Nat)
    (cmdVerify enterCfgMode fastCli legacyMode : Bool) (bp : String)
    (ch : Chan) : (Except PyErr String) × Chan :=
  match cc with
  | .none => (.ok "", ch)
  | .str s => adtranSendConfigSetCore [s] exitCfgMode maxLoops cmdVerify enterCfgMode fastCli legacyMode bp ch
  | .cmds l => adtranSendConfigSetCore l exitCfgMode maxLoops cmdVerify enterCfgMode fastCli legacyMode bp ch

/-- `AudiocodeShellSSH.check_config_mode` (audiocode_ssh_backup.py lines
625-641) with its defaults `check_string = "/CONFiguration"`,
`pattern = ""`: send a line terminator, drain the channel with
`_read_channel_timing`, and test for the check string. -/
def shellCheckConfigMode (ch : Chan) : Bool × Chan :=
  let ch := writeCh RETURN ch
  let (out, ch) := readChannelTiming ch
  (pyIn "/CONFiguration" out, ch)

/-- `AudiocodeShellSSH.exit_config_mode` (audiocode_ssh_backup.py lines
643-659) with its defaults `exit_config = ".."`, `pattern = "/>"`. -/
def shellExitConfigMode (ch : Chan) : (Except PyErr String) × Chan :=
  match shellCheckConfigMode ch with
  | (false, ch) => (.ok "", ch)
  | (true, ch) =>
    let ch := writeCh (normalizeCmd "..") ch
    match readUntilPattern (fun t => pyIn "/>" t) ch with
    | (.error e, ch) => (.error e, ch)
    | (.ok out, ch) =>
      match shellCheckConfigMode ch with
      | (true, ch) => (.error (.valueError "Failed to exit configuration mode"), ch)
      | (false, ch) => (.ok out, ch)

/-- Non-`cmd_verify` loop of `AudiocodeShellSSH.send_config_set`
(audiocode_ssh_backup.py lines 577-589): write each command and, when an
`error_pattern` is supplied, gather output incrementally and abort with
`ConfigInvalidException` naming the command as soon as the accumulated
output matches the pattern.  The pattern is modelled as a literal string
(matching is substring containment, the multiline flag is immaterial for
literals). -/
def shellCfgNoVerifyLoop (ep : String) : List String → String → Chan → (Except PyErr String) × Chan
  | [], acc, ch => (.ok acc, ch)
  | cmd :: rest, acc, ch =>
    let ch := writeCh (normalizeCmd cmd) ch
    if pyTruthy ep then
      let (r, ch) := readChannelTiming ch
      let acc := acc ++ r
      if pyIn ep acc then
        (.error (.configInvalid ("Invalid input detected at command: " ++ cmd)), ch)
      else shellCfgNoVerifyLoop ep rest acc ch
    else shellCfgNoVerifyLoop ep rest acc ch

/-- `cmd_verify` loop of `AudiocodeShellSSH.send_config_set`
(audiocode_ssh_backup.py lines 597-617): write each command, read until its
echo, read once more for the trailing prompt only when the echo read did
not already contain the prompt pattern, then check the error pattern
against the accumulated output. -/
def shellCfgVerifyLoop (ep bp : String) : List String → String → Chan → (Except PyErr String) × Chan
  | [], acc, ch => (.ok acc, ch)
  | cmd :: rest, acc, ch =>
    let ch := writeCh (normalizeCmd cmd) ch
    match readUntilPattern (fun t => pyIn (pyStrip cmd) t) ch with
    | (.error e, ch) => (.error e, ch)
    | (.ok newOut, ch) =>
      let acc := acc ++ newOut
      match
        (if !(promptPatHit bp newOut) then readUntilPattern (fun t => promptPatHit bp t) ch
         else (.ok "", ch)) with
      | (.error e, ch) => (.error e, ch)
      | (.ok extra, ch) =>
        let acc := acc ++ extra
        if pyTruthy ep && pyIn ep acc then
          (.error (.configInvalid ("Invalid input detected at command: " ++ cmd)), ch)
        else shellCfgVerifyLoop ep bp rest acc ch

/-- Body of `AudiocodeShellSSH.send_config_set` (audiocode_ssh_backup.py
lines 501-623) after argument normalization.  The burst branch requires
`fast_cli and self._legacy_mode and not error_pattern`; with
`error_pattern` and no `cmd_verify` the incremental loop runs, followed by
one bulk timing read only when no error pattern was supplied. -/
def shellSendConfigSetCore (cmds : List String) (exitCfgMode : Bool)
    (cmdVerify enterCfgMode fastCli legacyMode : Bool) (ep bp : String)
    (ch : Chan) : (Except PyErr String) × Chan :=
  let (out0, ch) := if enterCfgMode then configModeExt ch else ("", ch)
  let step :=
    if fastCli && legacyMode && !(pyTruthy ep) then
      let ch := cmds.foldl (fun c cmd => writeCh (normalizeCmd cmd) c) ch
      let (r, ch) := readChannelTiming ch
      ((Except.ok r : Except PyErr String), ch)
    else if !cmdVerify then
      match shellCfgNoVerifyLoop ep cmds "" ch with
      | (.error e, ch) => ((Except.error e : Except PyErr String), ch)
      | (.ok acc, ch) =>
        if !(pyTruthy ep) then
          let (r, ch) := readChannelTiming ch
          ((Except.ok (acc ++ r) : Except PyErr String), ch)
        else ((Except.ok acc : Except PyErr String), ch)
    else
      shellCfgVerifyLoop ep bp cmds "" ch
  match step with
  | (.error e, ch) => (.error e, ch)
  | (.ok out1, ch) =>
    match (if exitCfgMode then shellExitConfigMode ch else (.ok "", ch)) with
    | (.error e, ch) => (.error e, ch)
    | (.ok out2, ch) => (.ok (sanitizeOutput (out0 ++ out1 ++ out2)), ch)

/-- `AudiocodeShellSSH.send_config_set` (audiocode_ssh_backup.py lines
501-623). -/
def shellSendConfigSet (cc : ConfigArg) (exitCfgMode : Bool)
    (cmdVerify enterCfgMode fastCli legacyMode : Bool) (ep bp : String)
    (ch : Chan) : (Except PyErr String) × Chan :=
  match cc with
  | .none => (.ok "", ch)
  | .str s => shellSendConfigSetCore [s] exitCfgMode cmdVerify enterCfgMode fastCli legacyMode ep bp ch
  | .cmds l => shellSendConfigSetCore l exitCfgMode cmdVerify enterCfgMode fastCli legacyMode ep bp ch

/-- Concatenation of the texts returned by successive channel reads, used
to state accumulated-output properties. -/
def concatS : List String → String
  | [] => ""
  | a :: l => a ++ concatS l

/-! ### Basic lemmas about the string primitives -/

theorem string_data_append (a b : String) : (a ++ b).data = a.data ++ b.data := by
  cases a; cases b; rfl

theorem string_mk_data (s : String) : String.mk s.data = s := by
  cases s; rfl

theorem isPrefixB_iff (n h : List Char) : isPrefixB n h = true ↔ n <+: h := by
  induction n generalizing h with
  | nil => simp [isPrefixB]
  | cons a as ih =>
    cases h with
    | nil => simp [isPrefixB]
    | cons b bs =>
      simp [isPrefixB, ih, List.cons_prefix_cons]

theorem isInfixB_iff (n h : List Char) : isInfixB n h = true ↔ n <:+: h := by
  induction h with
  | nil => simp [isInfixB, isPrefixB_iff]
  | cons c t ih =>
    simp [isInfixB, isPrefixB_iff, ih, List.infix_cons_iff]

theorem string_append_empty (s : String) : s ++ "" = s := by
  cases s with
  | mk l => show String.mk (l ++ []) = String.mk l
            rw [List.append_nil]

theorem string_empty_append (s : String) : "" ++ s = s := by
  cases s with
  | mk l => rfl

theorem string_append_assoc (a b c : String) : a ++ b ++ c = a ++ (b ++ c) := by
  cases a with
  | mk la =>
    cases b with
    | mk lb =>
      cases c with
      | mk lc => show String.mk (la ++ lb ++ lc) = String.mk (la ++ (lb ++ lc))
                 rw [List.append_assoc]

theorem pyIn_of_infix {n h : String} (hi : n.data <:+: h.data) : pyIn n h = true :=
  (isInfixB_iff n.data h.data).mpr hi

theorem pyIn_append_left {n s : String} (t : String) (hs : pyIn n s = true) :
    pyIn n (s ++ t) = true := by
  apply pyIn_of_infix
  rw [string_data_append]
  exact ((isInfixB_iff n.data s.data).mp hs).trans ⟨[], t.data, by simp⟩

theorem pyIn_append_right {n t : String} (s : String) (ht : pyIn n t = true) :
    pyIn n (s ++ t) = true := by
  apply pyIn_of_infix
  rw [string_data_append]
  exact ((isInfixB_iff n.data t.data).mp ht).trans ⟨s.data, [], by simp⟩

theorem pyIn_refl (s : String) : pyIn s s = true :=
  pyIn_of_infix (List.infix_refl s.data)

theorem normLFGo_of_no_cr : ∀ {l : List Char}, '\r' ∉ l → normLFGo false l = l := by
  intro l
  induction l with
  | nil => intro _; rfl
  | cons c rest ih =>
    intro h
    have hc : ¬(c = '\r') := fun hc => h (hc ▸ List.mem_cons_self c rest)
    have hr : '\r' ∉ rest := fun hr => h (List.mem_cons_of_mem c hr)
    simp [normLFGo, hc, ih hr]

theorem pyNormLF_of_no_cr {s : String} (h : '\r' ∉ s.data) : pyNormLF s = s := by
  unfold pyNormLF normLF
  rw [normLFGo_of_no_cr h, string_mk_data]

theorem sanitizeOutput_of_no_cr {s : String} (h : '\r' ∉ s.data) :
    sanitizeOutput s = s := pyNormLF_of_no_cr h

theorem mem_of_mem_stripL {c : Char} {l : List Char} (h : c ∈ stripL l) : c ∈ l := by
  unfold stripL at h
  rw [List.mem_reverse] at h
  have h1 := (List.dropWhile_sublist (l := (l.dropWhile pyWS).reverse) (p := pyWS)).subset h
  rw [List.mem_reverse] at h1
  exact (List.dropWhile_sublist (l := l) (p := pyWS)).subset h1

theorem pyStrip_data (s : String) : (pyStrip s).data = stripL s.data := rfl

theorem readCh_writes (ch : Chan) : (readCh ch).2.writes = ch.writes := by
  unfold readCh
  cases ch.reads <;> rfl

/-! ## Claim theorems -/

/-- C1: on the spec scenario channel (pending output
`"\r\n" + "leading noise\r\n" + "hostname#"`) the Adtran prompt locator does
return the stripped last line `"hostname#"`, and the 7.2-backup
`set_base_prompt` strips the single trailing terminator to `"hostname"`;
but the `AudiocodeSSH` (audiocode_ssh.py) `set_base_prompt` cited by the
claim always takes the two-character slice (its
`if alt_prompt_terminator1 or alt_prompt_terminator2 in prompt:` condition
is truthy for every prompt), producing `"hostnam"` instead of the
documented `"hostname"`. -/
theorem c1_find_prompt_last_line_and_terminator_strip :
    (adtranFindPrompt 1 ⟨["\r\nleading noise\r\nhostname#"], []⟩).1 = .ok "hostname#"
    ∧ audiocodeBackupSetBasePrompt "hostname#" = .ok "hostname"
    ∧ audiocode72SetBasePrompt "hostname#" = .ok "hostnam"
    ∧ "hostnam" ≠ "hostname" := by
  refine ⟨by decide, by decide, by decide, by decide⟩

/-- C2: the Adtran prompt validation
`"Failure" not in prompt and "config" not in prompt and "#" in prompt or
">" in prompt` parses as `(A and B and C) or D`, so a last line that
contains the negative marker `"Failure"` together with the terminator `>`
is accepted and returned by `find_prompt` instead of being retried. -/
theorem c2_adtran_find_prompt_returns_negative_marker :
    (adtranFindPrompt 1 ⟨["SNMP Failure>"], []⟩).1 = .ok "SNMP Failure>"
    ∧ pyIn "Failure" "SNMP Failure>" = true := by
  refine ⟨by decide, by decide⟩

/-- C3: when every read yields the invalid non-empty line `"noise"`, the
Adtran locator raises `ValueError` reporting the last-seen text after its
budget of 21 outer iterations, but the `AudiocodeBaseSSH` locator
(`max_loops = 10` with the unreachable `loops == 19` raise guard) falls out
of its loop after 11 iterations and returns the invalid prompt normally. -/
theorem c3_outer_loop_exhaustion :
    (audiocodeFindPrompt 1 ⟨List.replicate 11 "noise", []⟩).1 = .ok "noise"
    ∧ audiocodePromptOk "noise" = false
    ∧ (adtranFindPrompt 1 ⟨List.replicate 21 "noise", []⟩).1
        = .error (.valueError "Unable to find prompt: noise") := by
  refine ⟨by decide, by decide, by decide⟩

/-- C9: `AudiocodeSSH.set_base_prompt` evaluates `prompt[-2]`, which raises
`IndexError` for every one-character prompt instead of the documented
router-prompt-not-found `ValueError`. -/
theorem c9_set_base_prompt_index_error (p : String) (hlen : p.data.length = 1) :
    audiocode72SetBasePrompt p = .indexError := by
  rcases List.length_eq_one.mp hlen with ⟨c, hc⟩
  norm_num [audiocode72SetBasePrompt, pyCharAt, hc]

/-- Witness for C9 at the bare privileged prompt `"#"`. -/
theorem c9_set_base_prompt_witness : audiocode72SetBasePrompt "#" = .indexError :=
  c9_set_base_prompt_index_error "#" (by decide)

/-- C10: with `config_commands = None` both `send_config_set`
implementations return the empty string at once: nothing is written, no
mode transition runs, and the channel state is untouched. -/
theorem c10_send_config_set_none_noop :
    ∀ (exitCfg maxLoops cmdVerify enterCfg fastCli legacy bp ep ch),
      adtranSendConfigSet .none exitCfg maxLoops cmdVerify enterCfg fastCli legacy bp ch
        = (.ok "", ch)
      ∧ shellSendConfigSet .none exitCfg cmdVerify enterCfg fastCli legacy ep bp ch
        = (.ok "", ch) := by
  intro exitCfg maxLoops cmdVerify enterCfg fastCli legacy bp ep ch
  exact ⟨rfl, rfl⟩

/-- C8 counterexample: on a channel that stays silent, the inner retry loop
of `find_prompt` resends the line terminator 13 times, not at most 12: the
guard `count <= 12` admits 13 iterations. -/
theorem c8_inner_retry_counterexample :
    (innerRetry 13 "" ⟨[], []⟩ 1).2.1.writes = List.replicate 13 RETURN
    ∧ ¬((innerRetry 13 "" ⟨[], []⟩ 1).2.1.writes.length ≤ 12) := by
  refine ⟨by decide, by decide⟩

theorem innerRetry_writes_le (fuel : Nat) :
    ∀ (p : String) (ch : Chan) (s : Nat),
      (innerRetry fuel p ch s).2.1.writes.length ≤ ch.writes.length + fuel := by
  induction fuel with
  | zero => intro p ch s; simp [innerRetry]
  | succ f ih =>
    intro p ch s
    by_cases hp : p = ""
    · subst hp
      rcases hr : readCh ch with ⟨r, ch'⟩
      have hw : ch'.writes = ch.writes := by rw [← readCh_writes ch, hr]
      simp only [innerRetry, hr, if_pos rfl]
      by_cases hps : pyStrip r = ""
      · rw [if_pos hps]
        calc (innerRetry f (pyStrip r) (writeCh RETURN ch') (backoffStep s)).2.1.writes.length
            ≤ (writeCh RETURN ch').writes.length + f := ih _ _ _
          _ = ch.writes.length + 1 + f := by
              simp [writeCh, hw]
          _ ≤ ch.writes.length + (f + 1) := by omega
      · rw [if_neg hps]
        calc (innerRetry f (pyStrip r) ch' s).2.1.writes.length
            ≤ ch'.writes.length + f := ih _ _ _
          _ ≤ ch.writes.length + (f + 1) := by rw [hw]; omega
    · simp only [innerRetry, if_neg hp]
      omega

/-- C8 amended: the inner empty-read retry loop performs at most 13 retry
attempts (the guard `count <= 12` admits 13 iterations), resending the line
terminator on every empty read; on an always-silent channel it performs
exactly 13 resends and the sleep interval (in tenths of a time-unit,
starting from 1, i.e. 0.1 units) doubles while at most 30 tenths and then
grows by 10 tenths per attempt, ending at 112 tenths after 5 doublings and
8 additive steps. -/
theorem c8_inner_retry_amended :
    (∀ (p : String) (ch : Chan) (s : Nat),
        (innerRetry 13 p ch s).2.1.writes.length ≤ ch.writes.length + 13)
    ∧ (innerRetry 13 "" ⟨[], []⟩ 1).2.1.writes.length = 13
    ∧ (innerRetry 13 "" ⟨[], []⟩ 1).2.2 = 112
    ∧ backoffStep 16 = 32 ∧ backoffStep 32 = 42 := by
  refine ⟨fun p ch s => innerRetry_writes_le 13 p ch s, by decide, by decide, by decide, by decide⟩

/-- C7 counterexample: with `max_loops = 1` and a channel that produces
data on every read, `_read_channel_timing_or_error` returns the
accumulated data when the loop budget is exhausted, without ever observing
an empty read (let alone two in a row): a third non-empty chunk is still
pending. -/
theorem c7_quiescence_counterexample :
    adtranReadTimingOrError "ZZZ" 1 ⟨["a", "b", "c"], []⟩ = (.ok "ab", ⟨["c"], []⟩) := by
  decide

/-- C7 amended: within the loop budget, the timing read returns through its
quiescence test exactly when an empty read is followed by the confirmation
re-read also coming back empty; a non-empty initial or confirmation read
whose accumulated data does not contain the error pattern appends the data
and continues the loop; when the loop budget is exhausted the accumulated
data is returned even without quiescence. -/
theorem c7_quiescence_amended :
    (∀ (pat : String) (fuel : Nat) (acc : String) (ch : Chan),
        (readCh ch).1 = "" → (readCh (readCh ch).2).1 = "" →
        rtLoop pat (fuel + 1) acc ch = (.ok acc, (readCh (readCh ch).2).2))
    ∧ (∀ (pat : String) (fuel : Nat) (acc : String) (ch : Chan),
        (readCh ch).1 ≠ "" → pyIn pat (acc ++ (readCh ch).1) = false →
        rtLoop pat (fuel + 1) acc ch
          = rtLoop pat fuel (acc ++ (readCh ch).1) (readCh ch).2)
    ∧ (∀ (pat : String) (fuel : Nat) (acc : String) (ch : Chan),
        (readCh ch).1 = "" → (readCh (readCh ch).2).1 ≠ "" →
        pyIn pat (acc ++ (readCh (readCh ch).2).1) = false →
        rtLoop pat (fuel + 1) acc ch
          = rtLoop pat fuel (acc ++ (readCh (readCh ch).2).1) (readCh (readCh ch).2).2)
    ∧ (∀ (pat acc : String) (ch : Chan), rtLoop pat 0 acc ch = (.ok acc, ch)) := by
  refine ⟨?_, ?_, ?_, fun _ _ _ => rfl⟩
  · intro pat fuel acc ch h1 h2
    rcases hr : readCh ch with ⟨nd, ch1⟩
    have h1' : nd = "" := by simpa [hr] using h1
    subst h1'
    rcases hr2 : readCh ch1 with ⟨nd2, ch2⟩
    have h2' : nd2 = "" := by simpa [hr, hr2] using h2
    subst h2'
    simp [rtLoop, hr, hr2]
  · intro pat fuel acc ch h1 h2
    rcases hr : readCh ch with ⟨nd, ch1⟩
    have h1' : nd ≠ "" := by simpa [hr] using h1
    have h2' : pyIn pat (acc ++ nd) = false := by simpa [hr] using h2
    simp [rtLoop, hr, h1', h2']
  · intro pat fuel acc ch h1 h2 h3
    rcases hr : readCh ch with ⟨nd, ch1⟩
    have h1' : nd = "" := by simpa [hr] using h1
    subst h1'
    rcases hr2 : readCh ch1 with ⟨nd2, ch2⟩
    have h2' : nd2 ≠ "" := by simpa [hr, hr2] using h2
    have h3' : pyIn pat (acc ++ nd2) = false := by simpa [hr, hr2] using h3
    simp [rtLoop, hr, hr2, h2', h3']

/-- Witness for C7: one quiescence exit and one continuation step on
concrete channels. -/
theorem c7_quiescence_witness :
    rtLoop "ZZZ" 1 "x" ⟨[], []⟩ = (.ok "x", ⟨[], []⟩)
    ∧ rtLoop "ZZZ" 1 "" ⟨["a"], []⟩ = rtLoop "ZZZ" 0 "a" ⟨[], []⟩ :=
  ⟨c7_quiescence_amended.1 "ZZZ" 0 "x" ⟨[], []⟩ (by decide) (by decide),
   by
    have h := c7_quiescence_amended.2.1 "ZZZ" 0 "" ⟨["a"], []⟩ (by decide) (by decide)
    simpa using h⟩

/-- C4: on the spec scenario (password prompt presented again after the
secret was first sent, then the privileged prompt) `enable` resends the
secret exactly once more — two secret writes in total — and succeeds only
after `check_enable_mode` confirms the privileged prompt; and whenever the
initial privilege probe says the device is unprivileged, every failure of
the exchange — a transport timeout on any read as well as a false
post-exchange `check_enable_mode` — surfaces as the
`ValueError(enableFailureMsg)` naming the missing secret, never as the raw
transport timeout. -/
theorem c4_enable_double_password_resend :
    ((adtranEnable "s3cret" ⟨[some "device>", some "Password: ", some "Password: ",
        some "device#", some "device#"], []⟩).1 = .ok "Password: device#"
      ∧ ((adtranEnable "s3cret" ⟨[some "device>", some "Password: ", some "Password: ",
          some "device#", some "device#"], []⟩).2.writes.filter
            (fun w => w == normalizeCmd "s3cret")).length = 2)
    ∧ ∀ (secret r0 : String) (rest : List (Option String)) (ws : List String) (e : PyErr),
        pyIn "#" r0 = false →
        (adtranEnable secret ⟨some r0 :: rest, ws⟩).1 = .error e →
        e = .valueError enableFailureMsg := by
  constructor
  · exact ⟨by decide, by decide⟩
  · intro secret r0 rest ws e h0 he
    rcases rest with _ | ⟨_ | s1, rest1⟩
    · simp [adtranEnable, checkEnableMode, preadUntil, pwriteCh, h0] at he
      exact he.symm
    · simp [adtranEnable, checkEnableMode, preadUntil, pwriteCh, h0] at he
      exact he.symm
    · rcases rest1 with _ | ⟨_ | s2, rest2⟩
      · simp [adtranEnable, checkEnableMode, preadUntil, pwriteCh, h0] at he
        exact he.symm
      · simp [adtranEnable, checkEnableMode, preadUntil, pwriteCh, h0] at he
        exact he.symm
      · by_cases hp : pyIn "ssword:" s2 = true
        · rcases rest2 with _ | ⟨_ | s3, rest3⟩
          · simp [adtranEnable, checkEnableMode, preadUntil, pwriteCh, h0, hp] at he
            exact he.symm
          · simp [adtranEnable, checkEnableMode, preadUntil, pwriteCh, h0, hp] at he
            exact he.symm
          · rcases rest3 with _ | ⟨_ | s4, rest4⟩
            · simp [adtranEnable, checkEnableMode, preadUntil, pwriteCh, h0, hp] at he
              exact he.symm
            · simp [adtranEnable, checkEnableMode, preadUntil, pwriteCh, h0, hp] at he
              exact he.symm
            · by_cases h4 : pyIn "#" s4 = true
              · simp [adtranEnable, checkEnableMode, preadUntil, pwriteCh, h0, hp, h4] at he
              · simp [adtranEnable, checkEnableMode, preadUntil, pwriteCh, h0, hp, h4] at he
                exact he.symm
        · rcases rest2 with _ | ⟨_ | s3, rest3⟩
          · simp [adtranEnable, checkEnableMode, preadUntil, pwriteCh, h0, hp] at he
            exact he.symm
          · simp [adtranEnable, checkEnableMode, preadUntil, pwriteCh, h0, hp] at he
            exact he.symm
          · by_cases h4 : pyIn "#" s3 = true
            · simp [adtranEnable, checkEnableMode, preadUntil, pwriteCh, h0, hp, h4] at he
            · simp [adtranEnable, checkEnableMode, preadUntil, pwriteCh, h0, hp, h4] at he
              exact he.symm

/-- Witness for C4: timeout conversion applied at a concrete channel whose
second password read times out. -/
theorem c4_enable_witness :
    pyIn "#" "device>" = false
    ∧ PyErr.valueError enableFailureMsg = PyErr.valueError enableFailureMsg :=
  ⟨by decide,
   c4_enable_double_password_resend.2 "s3cret" "device>" [some "Password: ", none] []
     (.valueError enableFailureMsg) (by decide) (by decide)⟩

theorem concatS_cons (a : String) (l : List String) : concatS (a :: l) = a ++ concatS l := rfl

theorem concatS_singleton (a : String) : concatS [a] = a := by
  show a ++ "" = a
  exact string_append_empty a

theorem shellCfgNoVerifyLoop_abort (ep : String) (hep : ep ≠ "") :
    ∀ (cmds : List String) (k : Nat) (outs ws : List String) (acc : String)
      (hk : k < cmds.length), outs.length = cmds.length →
      (∀ j, j < k → pyIn ep (acc ++ concatS (outs.take (j + 1))) = false) →
      pyIn ep (acc ++ concatS (outs.take (k + 1))) = true →
      shellCfgNoVerifyLoop ep cmds acc ⟨outs, ws⟩ =
        (.error (.configInvalid ("Invalid input detected at command: " ++ cmds.get ⟨k, hk⟩)),
         ⟨outs.drop (k + 1), ws ++ (cmds.take (k + 1)).map normalizeCmd⟩) := by
  intro cmds
  induction cmds with
  | nil =>
    intro k outs ws acc hk
    exact absurd hk (by simp)
  | cons c cs ih =>
    intro k outs ws acc hk hlen hNo hYes
    rcases outs with _ | ⟨o, os⟩
    · simp at hlen
    · have hlen' : os.length = cs.length := by simpa using hlen
      have hept : pyTruthy ep = true := by simp [pyTruthy, hep]
      rcases k with _ | k'
      · have hy : pyIn ep (acc ++ o) = true := by
          simpa [concatS_singleton] using hYes
        simp [shellCfgNoVerifyLoop, writeCh, readChannelTiming, readCh, hept, hy]
      · have hn0 : pyIn ep (acc ++ o) = false := by
          simpa [concatS_singleton] using hNo 0 (Nat.succ_pos k')
        have hk' : k' < cs.length := Nat.lt_of_succ_lt_succ hk
        have hNo' : ∀ j, j < k' → pyIn ep ((acc ++ o) ++ concatS (os.take (j + 1))) = false := by
          intro j hj
          have hthis := hNo (j + 1) (by omega)
          rwa [List.take_succ_cons, concatS_cons, ← string_append_assoc] at hthis
        have hYes' : pyIn ep ((acc ++ o) ++ concatS (os.take (k' + 1))) = true := by
          have hthis := hYes
          rwa [List.take_succ_cons, concatS_cons, ← string_append_assoc] at hthis
        have hrec := ih k' os (ws ++ [normalizeCmd c]) (acc ++ o) hk' hlen' hNo' hYes'
        simp only [shellCfgNoVerifyLoop, writeCh, readChannelTiming, readCh, hept, if_true,
          hn0, Bool.false_eq_true, if_false]
        rw [hrec]
        simp [List.append_assoc]

/-- C5: with a non-empty `error_pattern` (and echo verification off) the
Shell `send_config_set` gathers output per command, aborts at the first
command index `k` whose accumulated output matches the pattern, raises
`ConfigInvalidException` naming exactly that command, and writes nothing
after it: the channel write log ends with the normalized commands up to
and including index `k`. -/
theorem c5_config_error_pattern_aborts :
    ∀ (ep bp : String) (cmds outs ws : List String) (k : Nat) (exitCfg fc lm : Bool)
      (hk : k < cmds.length), ep ≠ "" → outs.length = cmds.length →
      (∀ j, j < k → pyIn ep (concatS (outs.take (j + 1))) = false) →
      pyIn ep (concatS (outs.take (k + 1))) = true →
      shellSendConfigSet (.cmds cmds) exitCfg false false fc lm ep bp ⟨outs, ws⟩ =
        (.error (.configInvalid ("Invalid input detected at command: " ++ cmds.get ⟨k, hk⟩)),
         ⟨outs.drop (k + 1), ws ++ (cmds.take (k + 1)).map normalizeCmd⟩) := by
  intro ep bp cmds outs ws k exitCfg fc lm hk hep hlen hNo hYes
  have hept : pyTruthy ep = true := by simp [pyTruthy, hep]
  have haux := shellCfgNoVerifyLoop_abort ep hep cmds k outs ws "" hk hlen
      (by intro j hj; rw [string_empty_append]; exact hNo j hj)
      (by rw [string_empty_append]; exact hYes)
  simp [shellSendConfigSet, shellSendConfigSetCore, haux, hept]

/-- Witness for C5: a three-command batch whose second command triggers the
error pattern; the third command is never written. -/
theorem c5_config_error_pattern_witness :
    shellSendConfigSet (.cmds ["good-cmd", "bad-cmd", "never-sent"]) false false false false false
        "Error" "SBC" ⟨["ok-output", "Error: syntax", "x"], []⟩ =
      (.error (.configInvalid "Invalid input detected at command: bad-cmd"),
       ⟨["x"], ["good-cmd\n", "bad-cmd\n"]⟩) := by
  have h := c5_config_error_pattern_aborts "Error" "SBC" ["good-cmd", "bad-cmd", "never-sent"]
      ["ok-output", "Error: syntax", "x"] [] 1 false false false (by decide) (by decide) (by decide)
      (by
        intro j hj
        have hj0 : j = 0 := by omega
        subst hj0
        decide)
      (by decide)
  simpa using h

theorem readUntilPattern_hit (pred : String → Bool) (r : String) (rest ws : List String)
    (h : pred r = true) :
    readUntilPattern pred ⟨r :: rest, ws⟩ = (.ok r, ⟨rest, ws⟩) := by
  show readUntilLoop pred ((r :: rest).length + 1) "" ⟨r :: rest, ws⟩ = _
  simp only [List.length_cons]
  simp [readUntilLoop, readCh, h]

theorem shellCfgVerifyLoop_echo (bp : String) :
    ∀ (cmds outs extra ws : List String) (acc : String),
      outs.length = cmds.length →
      (∀ i (hi : i < cmds.length) (ho : i < outs.length),
          pyIn (pyStrip (cmds.get ⟨i, hi⟩)) (outs.get ⟨i, ho⟩) = true
          ∧ promptPatHit bp (outs.get ⟨i, ho⟩) = true) →
      shellCfgVerifyLoop "" bp cmds acc ⟨outs ++ extra, ws⟩ =
        (.ok (acc ++ concatS outs), ⟨extra, ws ++ cmds.map normalizeCmd⟩) := by
  intro cmds
  induction cmds with
  | nil =>
    intro outs extra ws acc hlen _
    rcases outs with _ | ⟨o, os⟩
    · simp [shellCfgVerifyLoop, concatS, string_append_empty]
    · simp at hlen
  | cons c cs ih =>
    intro outs extra ws acc hlen hE
    rcases outs with _ | ⟨o, os⟩
    · simp at hlen
    · have hlen' : os.length = cs.length := by simpa using hlen
      have h0 := hE 0 (by simp) (by simp)
      simp only [List.get] at h0
      have hhit := readUntilPattern_hit (fun t => pyIn (pyStrip c) t) o (os ++ extra)
        (ws ++ [normalizeCmd c]) h0.1
      have hp : promptPatHit bp o = true := h0.2
      have hE' : ∀ i (hi : i < cs.length) (ho : i < os.length),
          pyIn (pyStrip (cs.get ⟨i, hi⟩)) (os.get ⟨i, ho⟩) = true
          ∧ promptPatHit bp (os.get ⟨i, ho⟩) = true := by
        intro i hi ho
        have hs := hE (i + 1) (by simpa using Nat.succ_lt_succ hi)
          (by simpa using Nat.succ_lt_succ ho)
        simpa using hs
      have hrec := ih os extra (ws ++ [normalizeCmd c]) ((acc ++ o) ++ "") hlen' hE'
      have ht : pyTruthy "" = false := by decide
      simp only [shellCfgVerifyLoop, writeCh, List.cons_append]
      rw [hhit]
      simp only [hp, Bool.not_true, Bool.false_eq_true, if_false, ht, Bool.false_and]
      rw [hrec]
      simp [concatS_cons, string_append_empty, string_empty_append, string_append_assoc,
        List.append_assoc]

/-- C6: with echo verification on, each command is written and read back by
its own echo; the extra prompt read happens only when the echo read did not
already contain the prompt pattern (in the generic scenario every echo read
ends with the prompt, so no extra read is consumed; the closed second
conjunct shows the extra read being consumed when the echo arrives without
the prompt); the combined output is exactly the echoed commands in batch
order followed by the mode-exit output, which is appended exactly once and
only when `exit_config_mode` is true. -/
theorem c6_config_echo_verify_output :
    (∀ (c1 c2 c3 : String) (ws : List String) (exitCfg : Bool),
        '\r' ∉ c1.data → '\r' ∉ c2.data → '\r' ∉ c3.data →
        shellSendConfigSet (.cmds [c1, c2, c3]) exitCfg true false false false "" "SBC"
          ⟨[pyStrip c1 ++ "\nSBC# ", pyStrip c2 ++ "\nSBC# ", pyStrip c3 ++ "\nSBC# ",
            "/CONFiguration>", "exit-done/>", "/>"], ws⟩
        = (.ok ((pyStrip c1 ++ "\nSBC# ") ++ ((pyStrip c2 ++ "\nSBC# ") ++
              ((pyStrip c3 ++ "\nSBC# ") ++ (if exitCfg then "exit-done/>" else "")))),
           if exitCfg then
             (⟨[], ws ++ [normalizeCmd c1, normalizeCmd c2, normalizeCmd c3, RETURN,
                normalizeCmd "..", RETURN]⟩ : Chan)
           else
             ⟨["/CONFiguration>", "exit-done/>", "/>"],
              ws ++ [normalizeCmd c1, normalizeCmd c2, normalizeCmd c3]⟩))
    ∧ shellSendConfigSet (.cmds ["cmd-one"]) false true false false false "" "SBC"
        ⟨["cmd-one\n", "SBC# "], []⟩
      = (.ok "cmd-one\nSBC# ", ⟨[], ["cmd-one\n"]⟩) := by
  constructor
  · intro c1 c2 c3 ws exitCfg hc1 hc2 hc3
    have he1 : pyIn (pyStrip c1) (pyStrip c1 ++ "\nSBC# ") = true :=
      pyIn_append_left _ (pyIn_refl _)
    have he2 : pyIn (pyStrip c2) (pyStrip c2 ++ "\nSBC# ") = true :=
      pyIn_append_left _ (pyIn_refl _)
    have he3 : pyIn (pyStrip c3) (pyStrip c3 ++ "\nSBC# ") = true :=
      pyIn_append_left _ (pyIn_refl _)
    have hsh : pyIn "#" ("\nSBC# " : String) = true := by decide
    have hp1 : promptPatHit "SBC" (pyStrip c1 ++ "\nSBC# ") = true := by
      simp [promptPatHit, pyIn_append_right _ hsh]
    have hp2 : promptPatHit "SBC" (pyStrip c2 ++ "\nSBC# ") = true := by
      simp [promptPatHit, pyIn_append_right _ hsh]
    have hp3 : promptPatHit "SBC" (pyStrip c3 ++ "\nSBC# ") = true := by
      simp [promptPatHit, pyIn_append_right _ hsh]
    have hE : ∀ i (hi : i < ([c1, c2, c3]).length)
        (ho : i < ([pyStrip c1 ++ "\nSBC# ", pyStrip c2 ++ "\nSBC# ",
          pyStrip c3 ++ "\nSBC# "]).length),
        pyIn (pyStrip (([c1, c2, c3]).get ⟨i, hi⟩))
            (([pyStrip c1 ++ "\nSBC# ", pyStrip c2 ++ "\nSBC# ",
              pyStrip c3 ++ "\nSBC# "]).get ⟨i, ho⟩) = true
        ∧ promptPatHit "SBC"
            (([pyStrip c1 ++ "\nSBC# ", pyStrip c2 ++ "\nSBC# ",
              pyStrip c3 ++ "\nSBC# "]).get ⟨i, ho⟩) = true := by
      intro i hi ho
      simp only [List.length_cons, List.length_nil] at hi
      interval_cases i
      · exact ⟨he1, hp1⟩
      · exact ⟨he2, hp2⟩
      · exact ⟨he3, hp3⟩
    have hloop := shellCfgVerifyLoop_echo "SBC"
      [c1, c2, c3]
      [pyStrip c1 ++ "\nSBC# ", pyStrip c2 ++ "\nSBC# ", pyStrip c3 ++ "\nSBC# "]
      ["/CONFiguration>", "exit-done/>", "/>"] ws "" (by simp) hE
    simp only [List.cons_append, List.nil_append] at hloop
    simp only [shellSendConfigSet, shellSendConfigSetCore, Bool.false_and, Bool.not_true,
      Bool.false_eq_true, if_false]
    rw [hloop]
    have hs1 : '\r' ∉ (pyStrip c1).data := fun hm => hc1 (mem_of_mem_stripL hm)
    have hs2 : '\r' ∉ (pyStrip c2).data := fun hm => hc2 (mem_of_mem_stripL hm)
    have hs3 : '\r' ∉ (pyStrip c3).data := fun hm => hc3 (mem_of_mem_stripL hm)
    have hnl : '\r' ∉ ("\nSBC# " : String).data := by decide
    have hex : '\r' ∉ ("exit-done/>" : String).data := by decide
    have hx1 : pyIn "/CONFiguration" "/CONFiguration>" = true := by decide
    have hx2 : pyIn "/>" "exit-done/>" = true := by decide
    have hx3 : pyIn "/CONFiguration" "/>" = false := by decide
    cases exitCfg with
    | false =>
      simp [sanitizeOutput_of_no_cr, concatS, string_data_append, string_append_empty,
        string_empty_append, string_append_assoc, List.append_assoc, List.mem_append,
        hs1, hs2, hs3, hnl, hex]
    | true =>
      simp [shellExitConfigMode, shellCheckConfigMode, readChannelTiming, readCh, writeCh,
        readUntilPattern, readUntilLoop, hx1, hx2, hx3,
        sanitizeOutput_of_no_cr, concatS, string_data_append, string_append_empty,
        string_empty_append, string_append_assoc, List.append_assoc, List.mem_append,
        hs1, hs2, hs3, hnl, hex]
  · decide

/-- Witness for C6 at concrete commands with the exit flag set. -/
theorem c6_config_echo_verify_witness :
    shellSendConfigSet (.cmds ["cmd-a", "cmd-b", "cmd-c"]) true true false false false "" "SBC"
      ⟨[pyStrip "cmd-a" ++ "\nSBC# ", pyStrip "cmd-b" ++ "\nSBC# ", pyStrip "cmd-c" ++ "\nSBC# ",
        "/CONFiguration>", "exit-done/>", "/>"], []⟩
    = (.ok ((pyStrip "cmd-a" ++ "\nSBC# ") ++ ((pyStrip "cmd-b" ++ "\nSBC# ") ++
          ((pyStrip "cmd-c" ++ "\nSBC# ") ++ "exit-done/>"))),
       ⟨[], [normalizeCmd "cmd-a", normalizeCmd "cmd-b", normalizeCmd "cmd-c", RETURN,
          normalizeCmd "..", RETURN]⟩) := by
  have h := c6_config_echo_verify_output.1 "cmd-a" "cmd-b" "cmd-c" [] true
    (by decide) (by decide) (by decide)
  simpa using h

end NetmikoDrivers
